import Mathlib

/-!
Verification of the PlayPulse/PatchLab temporal-fusion and verdict engines.

This file gives a shallow embedding, over the rationals, of the core of the
repository:

  * backend/fusion.py     — stream normalization, state-timeline
    reconstruction, 1 Hz resampling and gap filling, derived columns, and
    the fuse_streams entry point;
  * backend/verdict.py    — the contradiction-based compute_verdict and the
    compute_playtest_health_score aggregator (the patchlab copy, which the
    specification designates as authoritative);
  * backend/models.py     — the data records the two modules exchange.

Python floats are modelled as rationals.  Python round(x, n) and the pandas
DataFrame round are modelled exactly as round-half-to-even at n decimal
digits.  Python int(x) is modelled as truncation toward zero, and math.ceil
as the integer ceiling.  Python str.lower and str.strip are modelled
character-wise over the underlying character list (all strings the engines
compare are ASCII).
-/

-- ──────────────────────────────────────────────────────────────────────────
-- Numeric and string primitives shared by the embedding
-- ──────────────────────────────────────────────────────────────────────────

/-- Python int(x): truncation toward zero. -/
def truncQ (q : ℚ) : ℤ := if 0 ≤ q then ⌊q⌋ else ⌈q⌉

/-- Round a rational to the nearest integer, ties to even: the rounding mode
of Python round() and of pandas DataFrame.round. -/
def halfEven (q : ℚ) : ℤ :=
  if q - ⌊q⌋ < 1/2 then ⌊q⌋
  else if 1/2 < q - ⌊q⌋ then ⌊q⌋ + 1
  else if ⌊q⌋ % 2 = 0 then ⌊q⌋ else ⌊q⌋ + 1

/-- Python round(q, d) and pandas .round(d): half-even rounding at d
decimal digits. -/
def roundTo (d : Nat) (q : ℚ) : ℚ := (halfEven (q * 10 ^ d) : ℚ) / 10 ^ d

/-- Python str.lower over the character list. -/
def pyLower (s : String) : String := ⟨s.data.map Char.toLower⟩

/-- Python str.strip: drop whitespace from both ends. -/
def pyStrip (s : String) : String :=
  ⟨((s.data.dropWhile Char.isWhitespace).reverse.dropWhile Char.isWhitespace).reverse⟩

theorem halfEven_cases (q : ℚ) : halfEven q = ⌊q⌋ ∨ halfEven q = ⌊q⌋ + 1 := by
  unfold halfEven
  split_ifs <;> simp

theorem floor_le_halfEven (q : ℚ) : ⌊q⌋ ≤ halfEven q := by
  rcases halfEven_cases q with h | h <;> omega

theorem halfEven_le {q : ℚ} {n : ℤ} (h : q ≤ n) : halfEven q ≤ n := by
  have hf : ⌊q⌋ ≤ n := by
    have h2 := Int.floor_le_floor (α := ℚ) h
    simpa using h2
  unfold halfEven
  split_ifs with h1 h2 h3
  · exact hf
  · have hq : (⌊q⌋ : ℚ) < q := by linarith
    have hq2 : (⌊q⌋ : ℚ) < (n : ℚ) := lt_of_lt_of_le hq h
    have : ⌊q⌋ < n := by exact_mod_cast hq2
    omega
  · have hq : (⌊q⌋ : ℚ) < q := by linarith
    have hq2 : (⌊q⌋ : ℚ) < (n : ℚ) := lt_of_lt_of_le hq h
    have : ⌊q⌋ < n := by exact_mod_cast hq2
    omega
  · have hq : (⌊q⌋ : ℚ) < q := by linarith
    have hq2 : (⌊q⌋ : ℚ) < (n : ℚ) := lt_of_lt_of_le hq h
    have : ⌊q⌋ < n := by exact_mod_cast hq2
    omega

theorem halfEven_nonneg {q : ℚ} (h : 0 ≤ q) : 0 ≤ halfEven q :=
  le_trans (Int.le_floor.mpr (by exact_mod_cast h)) (floor_le_halfEven q)

theorem roundTo_nonneg {q : ℚ} (d : Nat) (h : 0 ≤ q) : 0 ≤ roundTo d q := by
  unfold roundTo
  apply div_nonneg _ (by positivity)
  have : 0 ≤ halfEven (q * 10 ^ d) := halfEven_nonneg (by positivity)
  exact_mod_cast this

theorem roundTo_le_one {q : ℚ} (d : Nat) (h : q ≤ 1) : roundTo d q ≤ 1 := by
  unfold roundTo
  rw [div_le_one (by positivity)]
  have hten : ((10 ^ d : ℤ) : ℚ) = (10 : ℚ) ^ d := by push_cast; ring
  have h2 : q * 10 ^ d ≤ ((10 ^ d : ℤ) : ℚ) := by
    rw [hten]
    calc q * 10 ^ d ≤ 1 * 10 ^ d := by
          apply mul_le_mul_of_nonneg_right h (by positivity)
      _ = 10 ^ d := one_mul _
  have h3 := halfEven_le h2
  calc ((halfEven (q * 10 ^ d) : ℤ) : ℚ) ≤ ((10 ^ d : ℤ) : ℚ) := by exact_mod_cast h3
    _ = (10 : ℚ) ^ d := hten

theorem roundTo_zero (d : Nat) : roundTo d 0 = 0 := by
  simp [roundTo, halfEven]

theorem roundTo_one (d : Nat) : roundTo d 1 = 1 := by
  have hten : ((10 ^ d : ℤ) : ℚ) = (10 : ℚ) ^ d := by push_cast; ring
  have hne : (10 : ℚ) ^ d ≠ 0 := by positivity
  unfold roundTo halfEven
  rw [one_mul, ← hten, Int.floor_intCast]
  rw [if_pos (by simp)]
  rw [hten, div_self hne]

-- ──────────────────────────────────────────────────────────────────────────
-- Data model (backend/models.py)
-- ──────────────────────────────────────────────────────────────────────────

/-- models.py DFAState.  Floats are rationals; list-of-string metadata kept. -/
structure DFAState where
  name : String
  description : String := ""
  visual_cues : List String := []
  failure_indicators : List String := []
  success_indicators : List String := []
  intended_emotion : String
  acceptable_range : ℚ × ℚ := (3/10, 4/5)
  expected_duration_sec : ℚ := 30
deriving DecidableEq

/-- models.py DFATransitionDef. -/
structure DFATransitionDef where
  from_state : String
  to_state : String
  trigger : String := ""
deriving DecidableEq

/-- models.py DFAConfig. -/
structure DFAConfig where
  states : List DFAState := []
  transitions : List DFATransitionDef := []
deriving DecidableEq

/-- models.py EmotionFrame (one Presage reading). -/
structure EmotionFrame where
  timestamp_sec : ℚ
  frustration : ℚ := 0
  confusion : ℚ := 0
  delight : ℚ := 0
  boredom : ℚ := 0
  surprise : ℚ := 0
  engagement : ℚ := 0
  heart_rate : ℚ := 0
  breathing_rate : ℚ := 0
deriving DecidableEq

/-- models.py WatchReading (one Apple Watch reading). -/
structure WatchReading where
  timestamp_sec : ℚ
  heart_rate : ℚ := 0
  hrv_rmssd : ℚ := 0
  hrv_sdnn : ℚ := 0
  movement_variance : ℚ := 0
deriving DecidableEq

/-- models.py ChunkStateObservation (fields the fusion engine reads, plus
the descriptive metadata it ignores). -/
structure ChunkStateObservation where
  state_name : String
  entered_at_sec : ℚ := 0
  exited_at_sec : ℚ := 0
  duration_sec : ℚ := 0
  player_behavior : String := ""
  progress : String := "normal"
  matches_success_indicators : Bool := false
  matches_failure_indicators : Bool := false
deriving DecidableEq

/-- models.py ChunkTransition. -/
structure ChunkTransition where
  from_state : Option String := none
  to_state : String
  timestamp_sec : ℚ
  confidence : ℚ := 1
deriving DecidableEq

/-- models.py ChunkResult (the events list and narrative fields are unused
by fusion and omitted; chunk_index, time_range_sec, states_observed,
transitions and end_state are kept). -/
structure ChunkResult where
  chunk_index : ℤ := 0
  time_range_sec : ℚ × ℚ
  states_observed : List ChunkStateObservation := []
  transitions : List ChunkTransition := []
  end_state : String := ""
  end_status : String := ""
  cumulative_deaths : ℤ := 0
deriving DecidableEq

/-- models.py FusedRow: the record the verdict engine consumes. -/
structure FusedRow where
  session_id : String := ""
  timestamp_sec : ℤ
  current_state : String := "unknown"
  time_in_state_sec : ℤ := 0
  frustration : ℚ := 0
  confusion : ℚ := 0
  delight : ℚ := 0
  boredom : ℚ := 0
  surprise : ℚ := 0
  engagement : ℚ := 0
  presage_hr : ℚ := 0
  breathing_rate : ℚ := 0
  watch_hr : ℚ := 0
  hrv_rmssd : ℚ := 0
  hrv_sdnn : ℚ := 0
  movement_variance : ℚ := 0
  dominant_emotion : String := ""
  hr_agreement : Option Bool := none
  data_quality : ℚ := 0
deriving DecidableEq

/-- models.py StateVerdict.  The playpulse-v2 copy of models.py carries all
fields up to deviation_score and verdict; the patchlab verdict engine also
populates contradiction_score, contradiction_detail and positive_score,
which the specification lists as StateVerdict attributes (its models.py is
not part of the sources; those three fields are modelled from the spec with
zero/empty defaults).  Python dicts with insertion order are modelled as
association lists. -/
structure StateVerdict where
  state_name : String
  intended_emotion : String
  acceptable_range : ℚ × ℚ := (0, 1)
  actual_avg_score : ℚ := 0
  actual_dominant_emotion : String := ""
  actual_distribution : List (String × ℚ) := []
  actual_duration_sec : ℚ := 0
  expected_duration_sec : ℚ := 0
  time_delta_sec : ℚ := 0
  intent_met : Bool := false
  deviation_score : ℚ := 0
  contradiction_score : ℚ := 0
  contradiction_detail : List (String × ℚ) := []
  positive_score : ℚ := 0
  verdict : String := "NO_DATA"
deriving DecidableEq

-- ──────────────────────────────────────────────────────────────────────────
-- Stream normalization (fusion.py _normalize_presage / _normalize_watch)
-- ──────────────────────────────────────────────────────────────────────────

/-- One row of the normalized Presage frame (fusion.py _normalize_presage
output columns). -/
structure PresageRow where
  t_sec : ℚ
  frustration : ℚ
  confusion : ℚ
  delight : ℚ
  boredom : ℚ
  surprise : ℚ
  engagement : ℚ
  presage_hr : ℚ
  breathing_rate : ℚ
deriving DecidableEq

/-- One row of the normalized Watch frame (fusion.py _normalize_watch
output columns). -/
structure WatchRow where
  t_sec : ℚ
  hr : ℚ
  hrv_rmssd : ℚ
  hrv_sdnn : ℚ
  movement_variance : ℚ
deriving DecidableEq

/-- fusion.py _normalize_presage, EmotionFrame branch.  The two dict-shaped
input branches produce the same row type after key lookup with 0.0
defaults, so the canonical record shape is the embedding of all three. -/
def _normalize_presage (frames : List EmotionFrame) : List PresageRow :=
  frames.map (fun f =>
    { t_sec := f.timestamp_sec
      frustration := f.frustration
      confusion := f.confusion
      delight := f.delight
      boredom := f.boredom
      surprise := f.surprise
      engagement := f.engagement
      presage_hr := f.heart_rate
      breathing_rate := f.breathing_rate })

/-- fusion.py _normalize_watch, WatchReading branch. -/
def _normalize_watch (readings : List WatchReading) : List WatchRow :=
  readings.map (fun r =>
    { t_sec := r.timestamp_sec
      hr := r.heart_rate
      hrv_rmssd := r.hrv_rmssd
      hrv_sdnn := r.hrv_sdnn
      movement_variance := r.movement_variance })

-- ──────────────────────────────────────────────────────────────────────────
-- State timeline (fusion.py _build_state_timeline)
-- ──────────────────────────────────────────────────────────────────────────

/-- One collected (t, state) pair: a ChunkTransition or a
ChunkStateObservation flattened by _build_state_timeline. -/
structure StateEvent where
  t : ℚ
  state : String
deriving DecidableEq

/-- The transition-collection loop of _build_state_timeline: per chunk,
transitions first, then states_observed, chunks in list order. -/
def collect_transitions (chunk_results : List ChunkResult) : List StateEvent :=
  chunk_results.flatMap (fun cr =>
    cr.transitions.map (fun tr => { t := tr.timestamp_sec, state := tr.to_state }) ++
    cr.states_observed.map (fun obs => { t := obs.entered_at_sec, state := obs.state_name }))

/-- Stable insertion of an event into an already sorted list: the new event
goes before every event with an equal or larger timestamp that sorted after
it in the input, matching the stability of the Python list sort. -/
def insertByT (e : StateEvent) : List StateEvent → List StateEvent
  | [] => [e]
  | f :: fs => if e.t ≤ f.t then e :: f :: fs else f :: insertByT e fs

/-- Stable sort by timestamp (Python list.sort with key t). -/
def sortByT : List StateEvent → List StateEvent
  | [] => []
  | e :: es => insertByT e (sortByT es)

/-- The suffix-overwrite write state_series.iloc[k:] = s of
_build_state_timeline, on a label list. -/
def setFrom (s : String) : Nat → List String → List String
  | _, [] => []
  | 0, _ :: ls => s :: setFrom s 0 ls
  | k + 1, l :: ls => l :: setFrom s k ls

/-- The sequential scan of _build_state_timeline over the sorted events:
bucket each event with int() truncation, skip buckets outside 0..N-1,
overwrite the label suffix from the bucket on. -/
def timeline_from_events (events : List StateEvent) (total_sec : Nat) : List String :=
  (sortByT events).foldl
    (fun labels e =>
      if 0 ≤ truncQ e.t ∧ truncQ e.t < (total_sec : ℤ) then
        setFrom e.state (truncQ e.t).toNat labels
      else labels)
    (List.replicate total_sec "unknown")

/-- fusion.py _build_state_timeline: collect, stable-sort, forward-fill. -/
def _build_state_timeline (chunk_results : List ChunkResult) (total_sec : Nat) : List String :=
  timeline_from_events (collect_transitions chunk_results) total_sec

/-- Modelled from the spec: one pass of the reference forward-fill of §4.2,
as a function update — set label i to the event state for every i from the
event bucket to N-1, ignore events whose bucket lies outside 0..N-1.  The
bucketing function is a parameter so that the floor-based wording of the
claim and the int-cast behavior of the code are both instances. -/
def overwrite_step (bucket : ℚ → ℤ) (N : Nat) (lab : Nat → String) (e : StateEvent) : Nat → String :=
  fun i =>
    if 0 ≤ bucket e.t ∧ bucket e.t < (N : ℤ) ∧ bucket e.t ≤ (i : ℤ) then e.state else lab i

/-- Modelled from the spec: the reference state-timeline algorithm of §4.2 —
stable-sort all (t, state) pairs by t, then apply each in order as a
tail overwrite from its bucket; seconds never written stay unknown. -/
def timeline_reference (bucket : ℚ → ℤ) (events : List StateEvent) (N : Nat) : List String :=
  (List.range N).map ((sortByT events).foldl (overwrite_step bucket N) (fun _ => "unknown"))

-- ──────────────────────────────────────────────────────────────────────────
-- Fusion engine (fusion.py fuse_streams and helpers)
-- ──────────────────────────────────────────────────────────────────────────

/-- fusion.py EMOTION_COLUMN_MAP: intended-emotion aliases onto measured
columns, in source order. -/
def EMOTION_COLUMN_MAP : List (String × String) :=
  [("frustration", "frustration"), ("confusion", "confusion"),
   ("delight", "delight"), ("boredom", "boredom"), ("surprise", "surprise"),
   ("engagement", "engagement"), ("tense", "frustration"),
   ("calm", "frustration"), ("excited", "delight"), ("satisfied", "delight"),
   ("curious", "confusion"), ("angry", "frustration"), ("scared", "surprise")]

/-- fusion.py EMOTION_COLS. -/
def EMOTION_COLS : List String :=
  ["frustration", "confusion", "delight", "boredom", "surprise", "engagement"]

/-- The five columns of the per-row dominant-emotion arg-max in fuse_streams
Step 7 (engagement excluded there). -/
def FIVE_EMOTIONS : List String :=
  ["frustration", "confusion", "delight", "boredom", "surprise"]

/-- pandas Series.max over a nonempty column; 0 for the empty frame (the
empty case is guarded before every use). -/
def maxQ : List ℚ → ℚ
  | [] => 0
  | x :: xs => xs.foldl max x

/-- fuse_streams Step 2: candidate session lengths and their maximum, 60
when all three inputs are empty. -/
def inferred_duration (p : List PresageRow) (w : List WatchRow)
    (chunk_results : List ChunkResult) : ℤ :=
  let cands : List ℤ :=
    (if p.isEmpty then [] else [truncQ (maxQ (p.map (fun r => r.t_sec))) + 1]) ++
    (if w.isEmpty then [] else [truncQ (maxQ (w.map (fun r => r.t_sec))) + 1]) ++
    (if chunk_results.isEmpty then []
     else [⌈maxQ (chunk_results.map (fun cr => cr.time_range_sec.2))⌉])
  match cands with
  | [] => 60
  | c :: cs => cs.foldl max c

/-- The resolved total_sec of fuse_streams: the override when supplied, the
inferred duration otherwise. -/
def session_length (presage_frames : List EmotionFrame) (watch_readings : List WatchReading)
    (chunk_results : List ChunkResult) (total_duration_sec : Option ℤ) : Nat :=
  (total_duration_sec.getD
    (inferred_duration (_normalize_presage presage_frames)
      (_normalize_watch watch_readings) chunk_results)).toNat

/-- Bucket of a fractional timestamp: astype(int) then clip(0, total_sec-1),
as in fuse_streams Steps 3 and 4. -/
def clip_bucket (total_sec : Nat) (t : ℚ) : Nat :=
  (min (max (truncQ t) 0) ((total_sec : ℤ) - 1)).toNat

/-- Presage rows landing in a given second. -/
def presage_bucket (p : List PresageRow) (N t : Nat) : List PresageRow :=
  p.filter (fun s => clip_bucket N s.t_sec == t)

/-- Does second t hold at least one raw Presage sample (the groupby count
gt(0) of fuse_streams Step 3)? -/
def has_presage (p : List PresageRow) (N t : Nat) : Bool :=
  !(presage_bucket p N t).isEmpty

/-- Column selector by pandas column name for the normalized Presage frame. -/
def presage_col (col : String) : PresageRow → ℚ :=
  if col = "frustration" then (fun r => r.frustration)
  else if col = "confusion" then (fun r => r.confusion)
  else if col = "delight" then (fun r => r.delight)
  else if col = "boredom" then (fun r => r.boredom)
  else if col = "surprise" then (fun r => r.surprise)
  else if col = "engagement" then (fun r => r.engagement)
  else if col = "presage_hr" then (fun r => r.presage_hr)
  else if col = "breathing_rate" then (fun r => r.breathing_rate)
  else fun _ => 0

/-- groupby(t_bucket).mean() for one column at one second. -/
def bucket_mean (col : String) (p : List PresageRow) (N t : Nat) : ℚ :=
  let vals := (presage_bucket p N t).map (presage_col col)
  vals.sum / vals.length

/-- Nearest populated second at or before t. -/
def prev_anchor (p : List PresageRow) (N t : Nat) : Option Nat :=
  (List.range (t + 1)).reverse.find? (fun j => has_presage p N j)

/-- Nearest populated second at or after t. -/
def next_anchor (p : List PresageRow) (N t : Nat) : Option Nat :=
  ((List.range N).drop t).find? (fun j => has_presage p N j)

/-- Linear interpolation between the anchor seconds a and b at position i. -/
def lin_fill (vp vn : ℚ) (a b i : Nat) : ℚ :=
  vp + (vn - vp) * (((i : ℚ) - (a : ℚ)) / ((b : ℚ) - (a : ℚ)))

/-- The emotion value of one column at one second after fuse_streams Step 3:
groupby mean, then interpolate(method=linear, limit=3), then ffill, then
bfill, then fillna(0), written as the composed per-second result.  A
populated second keeps its bucket mean.  A gap second with anchors on both
sides takes the linear value when it is at most 3 seconds past the left
anchor, and otherwise the forward-fill of the last interpolated position,
which is the linear value at a+3.  A trailing gap forward-fills the last
bucket mean, a leading gap back-fills the first, and the all-empty frame
(reachable only through the Step 3 else branch) is all zeros. -/
def emo_value_at (p : List PresageRow) (N t : Nat) (col : String) : ℚ :=
  if p.isEmpty then 0
  else if has_presage p N t then bucket_mean col p N t
  else
    match prev_anchor p N t, next_anchor p N t with
    | some a, some b =>
        if t - a ≤ 3 then lin_fill (bucket_mean col p N a) (bucket_mean col p N b) a b t
        else lin_fill (bucket_mean col p N a) (bucket_mean col p N b) a b (a + 3)
    | some a, none => bucket_mean col p N a
    | none, some b => bucket_mean col p N b
    | none, none => 0

/-- fuse_streams Step 3 data_quality: 1.0 when the second held at least one
raw sample, else 0.0 (also 0.0 throughout the empty-frame branch). -/
def data_quality_at (p : List PresageRow) (N t : Nat) : ℚ :=
  if has_presage p N t then 1 else 0

/-- Watch rows landing in a given second. -/
def watch_bucket (w : List WatchRow) (N t : Nat) : List WatchRow :=
  w.filter (fun s => clip_bucket N s.t_sec == t)

/-- Does second t hold at least one Watch sample? -/
def has_watch (w : List WatchRow) (N t : Nat) : Bool :=
  !(watch_bucket w N t).isEmpty

/-- Column selector for the normalized Watch frame. -/
def watch_col (col : String) : WatchRow → ℚ :=
  if col = "hr" then (fun r => r.hr)
  else if col = "hrv_rmssd" then (fun r => r.hrv_rmssd)
  else if col = "hrv_sdnn" then (fun r => r.hrv_sdnn)
  else if col = "movement_variance" then (fun r => r.movement_variance)
  else fun _ => 0

/-- Nearest Watch-populated second at or before t. -/
def watch_prev (w : List WatchRow) (N t : Nat) : Option Nat :=
  (List.range (t + 1)).reverse.find? (fun j => has_watch w N j)

/-- Nearest Watch-populated second at or after t. -/
def watch_next (w : List WatchRow) (N t : Nat) : Option Nat :=
  ((List.range N).drop t).find? (fun j => has_watch w N j)

/-- The biometric value of one column at one second after fuse_streams
Step 4: groupby(t_bucket).last(), then ffill, then bfill, then fillna(0). -/
def watch_value_at (w : List WatchRow) (N t : Nat) (col : String) : ℚ :=
  if w.isEmpty then 0
  else
    match (watch_bucket w N t).getLast? with
    | some s => watch_col col s
    | none =>
      match watch_prev w N t, watch_next w N t with
      | some a, _ => (((watch_bucket w N a).getLast?).map (watch_col col)).getD 0
      | none, some b => (((watch_bucket w N b).getLast?).map (watch_col col)).getD 0
      | none, none => 0

/-- The state label of one second: the timeline entry, with the out-of-range
default unreachable for t < N. -/
def state_at (chunk_results : List ChunkResult) (N t : Nat) : String :=
  (_build_state_timeline chunk_results N).getD t "unknown"

/-- fuse_streams Step 7 time_in_state_sec: the groupby(cumsum-of-changes)
cumcount, i.e. 0 at t = 0 or on a state change, else one more than at the
previous second. -/
def time_in_state (chunk_results : List ChunkResult) (N : Nat) : Nat → Nat
  | 0 => 0
  | t + 1 =>
    if state_at chunk_results N (t + 1) = state_at chunk_results N t then
      time_in_state chunk_results N t + 1
    else 0

/-- Python max(xs, key=val) and pandas idxmax: the first element attaining
the maximum (later elements replace only on strict increase). -/
def argmaxFold {α : Type} (val : α → ℚ) (l : List α) (init : α) : α :=
  l.foldl (fun best k => if val best < val k then k else best) init

/-- The (column, value) pairs of the Step 7 dominant-emotion arg-max. -/
def dominant_pairs (p : List PresageRow) (N t : Nat) : List (String × ℚ) :=
  FIVE_EMOTIONS.map (fun c => (c, emo_value_at p N t c))

/-- fuse_streams Step 7 dominant_emotion: idxmax over the five emotion
columns (engagement excluded), replaced by unknown when the row maximum is
not positive. -/
def dominant_emotion_at (p : List PresageRow) (N t : Nat) : String :=
  let best := argmaxFold Prod.snd (dominant_pairs p N t)
    ("frustration", emo_value_at p N t "frustration")
  if 0 < best.2 then best.1 else "unknown"

/-- The column EMOTION_COLUMN_MAP assigns to a lower-cased intended
emotion, with the dict-get default frustration. -/
def intent_col (intended : String) : String :=
  ((EMOTION_COLUMN_MAP.find? (fun pr => pr.1 == pyLower intended)).map Prod.snd).getD
    "frustration"

/-- The midpoint of the acceptable range used as the intended score target
in _compute_intent_delta. -/
def midpoint_of (s : DFAState) : ℚ :=
  s.acceptable_range.1 + (s.acceptable_range.2 - s.acceptable_range.1) / 2

/-- The state_intent dict of _compute_intent_delta: keyed by state name,
later list entries overwrite earlier ones, so lookup scans the reversed
list. -/
def state_intent_lookup (states : List DFAState) (st : String) : Option (String × ℚ) :=
  (states.reverse.find? (fun s => s.name == st)).map
    (fun s => (intent_col s.intended_emotion, midpoint_of s))

/-- Option-level wrapper over the config: none when no DFA config was
passed, else the dict lookup. -/
def state_intent_of (dfa_config : Option DFAConfig) (st : String) : Option (String × ℚ) :=
  match dfa_config with
  | none => none
  | some cfg => state_intent_lookup cfg.states st

/-- fusion.py _compute_intent_delta for one row: 0.0 when no config or no
state list, the absolute difference against the range midpoint when the
row state is a dict key, and the NaN-fillna(0) default otherwise. -/
def _compute_intent_delta (dfa_config : Option DFAConfig) (st : String)
    (colVal : String → ℚ) : ℚ :=
  match dfa_config with
  | none => 0
  | some cfg =>
    if cfg.states.isEmpty then 0
    else
      match state_intent_lookup cfg.states st with
      | some (col, mid) => |colVal col - mid|
      | none => 0

/-- One row of the fused 1 Hz DataFrame, with the Step 8 column set. -/
structure FrameRow where
  t : Nat
  session_id : String
  state : String
  time_in_state_sec : Nat
  frustration : ℚ
  confusion : ℚ
  delight : ℚ
  boredom : ℚ
  surprise : ℚ
  engagement : ℚ
  hr : ℚ
  hrv_rmssd : ℚ
  hrv_sdnn : ℚ
  presage_hr : ℚ
  breathing_rate : ℚ
  movement_variance : ℚ
  intent_delta : ℚ
  dominant_emotion : String
  data_quality : ℚ
deriving DecidableEq

/-- The row of the fused DataFrame at second t, float columns rounded to 4
decimals as in Step 8 (movement_variance is not in float_cols and stays
unrounded). -/
def mk_fused_row (p : List PresageRow) (w : List WatchRow)
    (chunk_results : List ChunkResult) (dfa_config : Option DFAConfig)
    (session_id : String) (N t : Nat) : FrameRow :=
  { t := t
    session_id := session_id
    state := state_at chunk_results N t
    time_in_state_sec := time_in_state chunk_results N t
    frustration := roundTo 4 (emo_value_at p N t "frustration")
    confusion := roundTo 4 (emo_value_at p N t "confusion")
    delight := roundTo 4 (emo_value_at p N t "delight")
    boredom := roundTo 4 (emo_value_at p N t "boredom")
    surprise := roundTo 4 (emo_value_at p N t "surprise")
    engagement := roundTo 4 (emo_value_at p N t "engagement")
    hr := roundTo 4 (watch_value_at w N t "hr")
    hrv_rmssd := roundTo 4 (watch_value_at w N t "hrv_rmssd")
    hrv_sdnn := roundTo 4 (watch_value_at w N t "hrv_sdnn")
    presage_hr := roundTo 4 (emo_value_at p N t "presage_hr")
    breathing_rate := roundTo 4 (emo_value_at p N t "breathing_rate")
    movement_variance := watch_value_at w N t "movement_variance"
    intent_delta :=
      roundTo 4 (_compute_intent_delta dfa_config (state_at chunk_results N t)
        (emo_value_at p N t))
    dominant_emotion := dominant_emotion_at p N t
    data_quality := roundTo 4 (data_quality_at p N t) }

/-- fusion.py fuse_streams: normalize, resolve the session length, and
assemble one FrameRow per second 0..N-1. -/
def fuse_streams (presage_frames : List EmotionFrame)
    (watch_readings : List WatchReading) (chunk_results : List ChunkResult)
    (dfa_config : Option DFAConfig := none) (session_id : String := "")
    (total_duration_sec : Option ℤ := none) : List FrameRow :=
  let p := _normalize_presage presage_frames
  let w := _normalize_watch watch_readings
  let N := session_length presage_frames watch_readings chunk_results total_duration_sec
  (List.range N).map (mk_fused_row p w chunk_results dfa_config session_id N)

-- ──────────────────────────────────────────────────────────────────────────
-- Verdict engine (patchlab verdict.py)
-- ──────────────────────────────────────────────────────────────────────────

/-- verdict.py EMOTION_KEYS (the patchlab copy: six keys, engagement
included). -/
def EMOTION_KEYS : List String :=
  ["frustration", "confusion", "delight", "boredom", "surprise", "engagement"]

/-- A primary/contradictions weight profile, dicts as association lists in
source order. -/
structure EmotionProfile where
  primary : List (String × ℚ)
  contradictions : List (String × ℚ)
deriving DecidableEq

/-- verdict.py EMOTION_PROFILES. -/
def EMOTION_PROFILES : List (String × EmotionProfile) :=
  [("excited",
    { primary := [("engagement", 1/2), ("surprise", 3/10), ("delight", 1/5)]
      contradictions := [("boredom", 1), ("frustration", 7/10)] }),
   ("curious",
    { primary := [("engagement", 3/5), ("surprise", 1/5), ("confusion", 1/5)]
      contradictions := [("boredom", 1), ("frustration", 3/5)] }),
   ("tense",
    { primary := [("engagement", 2/5), ("surprise", 3/10), ("frustration", 3/10)]
      contradictions := [("boredom", 1), ("delight", 3/10)] }),
   ("delighted",
    { primary := [("delight", 7/10), ("engagement", 1/5), ("surprise", 1/10)]
      contradictions := [("frustration", 1), ("boredom", 4/5), ("confusion", 1/2)] }),
   ("calm",
    { primary := [("engagement", 1/2), ("delight", 1/2)]
      contradictions := [("frustration", 1), ("surprise", 3/5), ("confusion", 1/2)] }),
   ("surprised",
    { primary := [("surprise", 7/10), ("engagement", 3/10)]
      contradictions := [("boredom", 1)] }),
   ("satisfied",
    { primary := [("delight", 1/2), ("engagement", 1/2)]
      contradictions := [("frustration", 1), ("boredom", 7/10), ("confusion", 2/5)] }),
   ("frustration",
    { primary := [("frustration", 3/5), ("engagement", 2/5)]
      contradictions := [("boredom", 1), ("delight", 3/10)] }),
   ("confusion",
    { primary := [("confusion", 3/5), ("engagement", 2/5)]
      contradictions := [("boredom", 1)] }),
   ("delight",
    { primary := [("delight", 7/10), ("engagement", 1/5), ("surprise", 1/10)]
      contradictions := [("frustration", 1), ("boredom", 4/5), ("confusion", 1/2)] }),
   ("boredom",
    { primary := [("boredom", 1)]
      contradictions := [("engagement", 4/5), ("delight", 3/5), ("surprise", 1/2)] }),
   ("surprise",
    { primary := [("surprise", 7/10), ("engagement", 3/10)]
      contradictions := [("boredom", 1)] }),
   ("engagement",
    { primary := [("engagement", 4/5), ("delight", 1/5)]
      contradictions := [("boredom", 1), ("frustration", 2/5)] })]

/-- verdict.py _DEFAULT_PROFILE. -/
def _DEFAULT_PROFILE : EmotionProfile :=
  { primary := [("engagement", 1)]
    contradictions := [("boredom", 1), ("frustration", 1/2)] }

/-- EMOTION_PROFILES.get(intended.lower().strip(), _DEFAULT_PROFILE). -/
def profile_of (intended : String) : EmotionProfile :=
  ((EMOTION_PROFILES.find? (fun pr => pr.1 == pyStrip (pyLower intended))).map
    Prod.snd).getD _DEFAULT_PROFILE

/-- getattr(row, key) for the six emotion keys of a FusedRow. -/
def emotion_field (r : FusedRow) (k : String) : ℚ :=
  if k = "frustration" then r.frustration
  else if k = "confusion" then r.confusion
  else if k = "delight" then r.delight
  else if k = "boredom" then r.boredom
  else if k = "surprise" then r.surprise
  else if k = "engagement" then r.engagement
  else 0

/-- The emotion_avgs dict of compute_verdict: the mean of one emotion key
over the filtered rows (sum/len, 0.0 for the guarded empty case). -/
def emotion_avgs_of (state_rows : List FusedRow) (k : String) : ℚ :=
  let vals := state_rows.map (fun r => emotion_field r k)
  vals.sum / vals.length

/-- The positive_score accumulation loop over the primary profile map. -/
def primary_sum (profile : EmotionProfile) (avgs : String → ℚ) : ℚ :=
  profile.primary.foldl (fun acc pr => acc + pr.2 * avgs pr.1) 0

/-- The contradiction loop of compute_verdict: detail entries (rounded
contributions) and the raw running sum, skipping channels at or below the
0.05 noise floor. -/
def contradiction_fold (profile : EmotionProfile) (avgs : String → ℚ) :
    List (String × ℚ) × ℚ :=
  profile.contradictions.foldl
    (fun acc pr =>
      let avg := avgs pr.1
      if avg > 1/20 then
        (acc.1 ++ [(pr.1, roundTo 4 (pr.2 * avg))], acc.2 + pr.2 * avg)
      else acc)
    ([], 0)

/-- The timing penalty of compute_verdict from the actual/expected duration
quotient. -/
def time_penalty_of (tr : ℚ) : ℚ :=
  if tr < 1/4 then 3/20
  else if tr > 4 then 1/5
  else if tr > 2 then 1/10
  else 0

/-- patchlab verdict.py compute_verdict. -/
def compute_verdict (fused_rows : List FusedRow) (state_config : DFAState) : StateVerdict :=
  let state_name := state_config.name
  let intended := state_config.intended_emotion
  let low := state_config.acceptable_range.1
  let high := state_config.acceptable_range.2
  let expected_dur := state_config.expected_duration_sec
  let state_rows := fused_rows.filter (fun r => r.current_state == state_name)
  if state_rows = [] then
    { state_name := state_name
      intended_emotion := intended
      acceptable_range := (low, high)
      expected_duration_sec := expected_dur
      verdict := "NO_DATA" }
  else
    let avgs := emotion_avgs_of state_rows
    let dominant := argmaxFold avgs EMOTION_KEYS "frustration"
    let profile := profile_of intended
    let positive_score := min (primary_sum profile avgs) 1
    let cd := contradiction_fold profile avgs
    let contradiction_score := min cd.2 1
    let actual_dur : ℚ := state_rows.length
    let time_delta := actual_dur - expected_dur
    let tr := if expected_dur > 0 then actual_dur / expected_dur else 1
    let time_penalty := time_penalty_of tr
    let verdict0 :=
      if contradiction_score < 3/20 ∧ positive_score ≥ low then "PASS"
      else if contradiction_score < 3/10 ∧ positive_score ≥ low * (1/2) then "WARN"
      else "FAIL"
    let verdict := if verdict0 = "PASS" ∧ time_penalty ≥ 3/20 then "WARN" else verdict0
    let deviation := min (contradiction_score + time_penalty * (3/10)) 1
    { state_name := state_name
      intended_emotion := intended
      acceptable_range := (low, high)
      actual_avg_score := roundTo 4 positive_score
      actual_dominant_emotion := dominant
      actual_distribution := EMOTION_KEYS.map (fun k => (k, roundTo 4 (avgs k)))
      actual_duration_sec := actual_dur
      expected_duration_sec := expected_dur
      time_delta_sec := roundTo 2 time_delta
      intent_met := verdict = "PASS"
      deviation_score := roundTo 4 deviation
      contradiction_score := roundTo 4 contradiction_score
      contradiction_detail := cd.1
      positive_score := roundTo 4 positive_score
      verdict := verdict }

/-- patchlab verdict.py compute_playtest_health_score: the scores list is
built by the for-loop (NO_DATA and unrecognized labels appended nothing),
then round(sum/len, 4) if scores else 0.0. -/
def compute_playtest_health_score (verdicts : List StateVerdict) : ℚ :=
  let scores := verdicts.foldl
    (fun (scores : List ℚ) v =>
      if v.verdict = "PASS" then scores ++ [1]
      else if v.verdict = "WARN" then scores ++ [3/5]
      else if v.verdict = "FAIL" then
        scores ++ [max 0 (1 - v.contradiction_score - v.deviation_score * (3/10))]
      else scores)
    []
  if scores = [] then 0 else roundTo 4 (scores.sum / scores.length)

-- ──────────────────────────────────────────────────────────────────────────
-- Spec-side reference definitions for the refinement claims
-- ──────────────────────────────────────────────────────────────────────────

/-- Modelled from the spec: the verdict decision table of §4.4 step 7 in its
stated priority order, with the PASS-to-WARN timing downgrade. -/
def verdict_decision_spec (c p low tp : ℚ) : String :=
  let base :=
    if c < 3/20 ∧ p ≥ low then "PASS"
    else if c < 3/10 ∧ p ≥ (1/2) * low then "WARN"
    else "FAIL"
  if base = "PASS" ∧ tp ≥ 3/20 then "WARN" else base

/-- Modelled from the spec: the per-verdict point mapping of §4.5 — PASS to
1.0, WARN to 0.6, FAIL to max(0, 1 - contradiction - 0.3 * deviation),
NO_DATA (and anything else outside the verdict domain) excluded. -/
def verdict_points (v : StateVerdict) : Option ℚ :=
  if v.verdict = "PASS" then some 1
  else if v.verdict = "WARN" then some (3/5)
  else if v.verdict = "FAIL" then
    some (max 0 (1 - v.contradiction_score - (3/10) * v.deviation_score))
  else none

/-- Modelled from the spec: the health score of §4.5 — the arithmetic mean
of the mapped points, rounded to 4 decimals, 0.0 when nothing remains. -/
def health_spec (verdicts : List StateVerdict) : ℚ :=
  let pts := verdicts.filterMap verdict_points
  if pts = [] then 0 else roundTo 4 (pts.sum / pts.length)

-- ──────────────────────────────────────────────────────────────────────────
-- Helper lemmas
-- ──────────────────────────────────────────────────────────────────────────

theorem mk_fused_row_t (p : List PresageRow) (w : List WatchRow)
    (crs : List ChunkResult) (cfg : Option DFAConfig) (sid : String) (N t : Nat) :
    (mk_fused_row p w crs cfg sid N t).t = t := rfl

theorem fuse_streams_eq_map (pf : List EmotionFrame) (wr : List WatchReading)
    (crs : List ChunkResult) (cfg : Option DFAConfig) (sid : String)
    (dur : Option ℤ) :
    fuse_streams pf wr crs cfg sid dur =
      (List.range (session_length pf wr crs dur)).map
        (mk_fused_row (_normalize_presage pf) (_normalize_watch wr) crs cfg sid
          (session_length pf wr crs dur)) := rfl

theorem session_length_some (pf : List EmotionFrame) (wr : List WatchReading)
    (crs : List ChunkResult) (N : ℕ) :
    session_length pf wr crs (some (N : ℤ)) = N := by
  simp [session_length]

theorem fuse_streams_map_t (pf : List EmotionFrame) (wr : List WatchReading)
    (crs : List ChunkResult) (cfg : Option DFAConfig) (sid : String)
    (dur : Option ℤ) :
    (fuse_streams pf wr crs cfg sid dur).map (fun r => r.t) =
      List.range (session_length pf wr crs dur) := by
  rw [fuse_streams_eq_map, List.map_map]
  exact List.map_id' _

-- ──────────────────────────────────────────────────────────────────────────
-- C1
-- ──────────────────────────────────────────────────────────────────────────

/-- C1: for every input and every supplied total_duration_sec = N,
fuse_streams returns exactly N rows whose t values are 0..N-1 in strictly
increasing order, with no gaps and no duplicates. -/
theorem c1_row_count_invariant (pf : List EmotionFrame) (wr : List WatchReading)
    (crs : List ChunkResult) (cfg : Option DFAConfig) (sid : String) (N : ℕ) :
    (fuse_streams pf wr crs cfg sid (some (N : ℤ))).length = N ∧
    (fuse_streams pf wr crs cfg sid (some (N : ℤ))).map (fun r => r.t) =
      List.range N ∧
    List.Pairwise (· < ·)
      ((fuse_streams pf wr crs cfg sid (some (N : ℤ))).map (fun r => r.t)) := by
  have hmap := fuse_streams_map_t pf wr crs cfg sid (some (N : ℤ))
  rw [session_length_some] at hmap
  refine ⟨?_, hmap, ?_⟩
  · have := congrArg List.length hmap
    simpa using this
  · rw [hmap]
    exact List.pairwise_lt_range N

-- ──────────────────────────────────────────────────────────────────────────
-- C7
-- ──────────────────────────────────────────────────────────────────────────

/-- C7: compute_verdict always returns a verdict in PASS/WARN/FAIL/NO_DATA;
the verdict is NO_DATA exactly when no fused row carries the spec state
name; and in that case the whole StateVerdict is the identity fields plus
defaults. -/
theorem c7_verdict_domain_no_data (rows : List FusedRow) (cfg : DFAState) :
    ((compute_verdict rows cfg).verdict = "PASS" ∨
     (compute_verdict rows cfg).verdict = "WARN" ∨
     (compute_verdict rows cfg).verdict = "FAIL" ∨
     (compute_verdict rows cfg).verdict = "NO_DATA") ∧
    ((compute_verdict rows cfg).verdict = "NO_DATA" ↔
      rows.filter (fun r => r.current_state == cfg.name) = []) ∧
    (rows.filter (fun r => r.current_state == cfg.name) = [] →
      compute_verdict rows cfg =
        { state_name := cfg.name
          intended_emotion := cfg.intended_emotion
          acceptable_range := (cfg.acceptable_range.1, cfg.acceptable_range.2)
          expected_duration_sec := cfg.expected_duration_sec
          verdict := "NO_DATA" }) := by
  by_cases h : rows.filter (fun r => r.current_state == cfg.name) = []
  · refine ⟨Or.inr (Or.inr (Or.inr ?_)), ⟨fun _ => h, fun _ => ?_⟩, fun _ => ?_⟩ <;>
      simp [compute_verdict, h]
  · have hv : (compute_verdict rows cfg).verdict = "PASS" ∨
        (compute_verdict rows cfg).verdict = "WARN" ∨
        (compute_verdict rows cfg).verdict = "FAIL" := by
      simp only [compute_verdict, if_neg h]
      split_ifs <;> simp
    refine ⟨?_, ⟨fun hND => ?_, fun hfil => absurd hfil h⟩, fun hfil => absurd hfil h⟩
    · rcases hv with h1 | h1 | h1
      · exact Or.inl h1
      · exact Or.inr (Or.inl h1)
      · exact Or.inr (Or.inr (Or.inl h1))
    · rcases hv with h1 | h1 | h1 <;> rw [hND] at h1 <;> exact absurd h1 (by decide)

-- ──────────────────────────────────────────────────────────────────────────
-- C4
-- ──────────────────────────────────────────────────────────────────────────

/-- The three score quantities compute_verdict derives before deciding:
contradiction score, positive score, timing penalty. -/
def verdict_scores (rows : List FusedRow) (cfg : DFAState) : ℚ × ℚ × ℚ :=
  let state_rows := rows.filter (fun r => r.current_state == cfg.name)
  let avgs := emotion_avgs_of state_rows
  let profile := profile_of cfg.intended_emotion
  (min (contradiction_fold profile avgs).2 1,
   min (primary_sum profile avgs) 1,
   time_penalty_of
     (if cfg.expected_duration_sec > 0 then
        (state_rows.length : ℚ) / cfg.expected_duration_sec
      else 1))

theorem verdict_decision_spec_fail {c p low tp : ℚ}
    (h : verdict_decision_spec c p low tp = "FAIL") :
    verdict_decision_spec c p low 0 = "FAIL" := by
  simp only [verdict_decision_spec] at h ⊢
  split_ifs at h ⊢ <;> simp_all

/-- C4: on a non-empty filtered row set the verdict equals the spec decision
table applied in its exact priority order to the computed scores, and a
FAIL never depends on the timing penalty — the same scores with a zero
penalty still give FAIL. -/
theorem c4_verdict_priority (rows : List FusedRow) (cfg : DFAState)
    (h : rows.filter (fun r => r.current_state == cfg.name) ≠ []) :
    (compute_verdict rows cfg).verdict =
      verdict_decision_spec (verdict_scores rows cfg).1 (verdict_scores rows cfg).2.1
        cfg.acceptable_range.1 (verdict_scores rows cfg).2.2 ∧
    ((compute_verdict rows cfg).verdict = "FAIL" →
      verdict_decision_spec (verdict_scores rows cfg).1 (verdict_scores rows cfg).2.1
        cfg.acceptable_range.1 0 = "FAIL") := by
  have heq : (compute_verdict rows cfg).verdict =
      verdict_decision_spec (verdict_scores rows cfg).1 (verdict_scores rows cfg).2.1
        cfg.acceptable_range.1 (verdict_scores rows cfg).2.2 := by
    simp only [compute_verdict, if_neg h, verdict_decision_spec, verdict_scores,
      mul_comm]
  exact ⟨heq, fun hFail => verdict_decision_spec_fail (heq ▸ hFail)⟩

/-- Concrete rows for the C4 instantiation. -/
def c4_rows : List FusedRow :=
  [{ timestamp_sec := 0, current_state := "s", engagement := 1/2 }]

/-- Concrete state spec for the C4 instantiation. -/
def c4_cfg : DFAState :=
  { name := "s", intended_emotion := "zzz", acceptable_range := (3/10, 4/5),
    expected_duration_sec := 1 }

theorem c4_witness :
    c4_rows.filter (fun r => r.current_state == c4_cfg.name) ≠ [] ∧
    (compute_verdict c4_rows c4_cfg).verdict =
      verdict_decision_spec (verdict_scores c4_rows c4_cfg).1
        (verdict_scores c4_rows c4_cfg).2.1 c4_cfg.acceptable_range.1
        (verdict_scores c4_rows c4_cfg).2.2 :=
  ⟨by simp [c4_rows, c4_cfg, List.filter],
   (c4_verdict_priority c4_rows c4_cfg (by simp [c4_rows, c4_cfg, List.filter])).1⟩

-- ──────────────────────────────────────────────────────────────────────────
-- C5
-- ──────────────────────────────────────────────────────────────────────────

theorem contradiction_fold_go (avgs : String → ℚ) (l : List (String × ℚ)) :
    ∀ (d : List (String × ℚ)) (s : ℚ),
      l.foldl
        (fun acc pr =>
          let avg := avgs pr.1
          if avg > 1/20 then
            (acc.1 ++ [(pr.1, roundTo 4 (pr.2 * avg))], acc.2 + pr.2 * avg)
          else acc)
        (d, s) =
      (d ++ (l.filter (fun pr => avgs pr.1 > 1/20)).map
          (fun pr => (pr.1, roundTo 4 (pr.2 * avgs pr.1))),
       s + ((l.filter (fun pr => avgs pr.1 > 1/20)).map
          (fun pr => pr.2 * avgs pr.1)).sum) := by
  induction l with
  | nil => intro d s; simp
  | cons x xs ih =>
    intro d s
    by_cases hx : avgs x.1 > 1/20
    · simp only [List.foldl_cons, if_pos hx, List.filter_cons, decide_eq_true hx,
        if_pos, List.map_cons, List.sum_cons]
      rw [ih]
      simp [add_assoc]
    · simp only [List.foldl_cons, if_neg hx, List.filter_cons]
      rw [if_neg (by simpa using hx)]
      exact ih d s

/-- The contradiction loop of compute_verdict in filtered-map form. -/
theorem contradiction_fold_eq (profile : EmotionProfile) (avgs : String → ℚ) :
    contradiction_fold profile avgs =
      ((profile.contradictions.filter (fun pr => avgs pr.1 > 1/20)).map
         (fun pr => (pr.1, roundTo 4 (pr.2 * avgs pr.1))),
       ((profile.contradictions.filter (fun pr => avgs pr.1 > 1/20)).map
         (fun pr => pr.2 * avgs pr.1)).sum) := by
  unfold contradiction_fold
  rw [contradiction_fold_go]
  simp

/-- The emotion averages over the rows filtered to one state. -/
def state_avgs (rows : List FusedRow) (cfg : DFAState) : String → ℚ :=
  emotion_avgs_of (rows.filter (fun r => r.current_state == cfg.name))

/-- Modelled from the spec: the contradiction channels that clear the 0.05
noise floor. -/
def contradiction_channels (rows : List FusedRow) (cfg : DFAState) : List (String × ℚ) :=
  (profile_of cfg.intended_emotion).contradictions.filter
    (fun pr => state_avgs rows cfg pr.1 > 1/20)

/-- C5: on a non-empty filtered row set the contradiction score is the
4-decimal rounding of min(1, sum of severity times average) over exactly
the channels above the 0.05 noise floor, the detail map lists exactly those
channels, and when every contradiction channel is at or below the floor the
score is 0 and the detail map empty. -/
theorem c5_contradiction_noise_floor (rows : List FusedRow) (cfg : DFAState)
    (h : rows.filter (fun r => r.current_state == cfg.name) ≠ []) :
    (compute_verdict rows cfg).contradiction_score =
      roundTo 4 (min ((contradiction_channels rows cfg).map
        (fun pr => pr.2 * state_avgs rows cfg pr.1)).sum 1) ∧
    (compute_verdict rows cfg).contradiction_detail =
      (contradiction_channels rows cfg).map
        (fun pr => (pr.1, roundTo 4 (pr.2 * state_avgs rows cfg pr.1))) ∧
    ((∀ pr ∈ (profile_of cfg.intended_emotion).contradictions,
        state_avgs rows cfg pr.1 ≤ 1/20) →
      (compute_verdict rows cfg).contradiction_score = 0 ∧
      (compute_verdict rows cfg).contradiction_detail = []) := by
  have hscore : (compute_verdict rows cfg).contradiction_score =
      roundTo 4 (min ((contradiction_channels rows cfg).map
        (fun pr => pr.2 * state_avgs rows cfg pr.1)).sum 1) := by
    simp only [compute_verdict, if_neg h, contradiction_fold_eq,
      contradiction_channels, state_avgs]
  have hdetail : (compute_verdict rows cfg).contradiction_detail =
      (contradiction_channels rows cfg).map
        (fun pr => (pr.1, roundTo 4 (pr.2 * state_avgs rows cfg pr.1))) := by
    simp only [compute_verdict, if_neg h, contradiction_fold_eq,
      contradiction_channels, state_avgs]
  refine ⟨hscore, hdetail, fun hall => ⟨?_, ?_⟩⟩
  · have hnil : contradiction_channels rows cfg = [] := by
      rw [contradiction_channels, List.filter_eq_nil_iff]
      intro pr hpr
      simpa using not_lt.mpr (hall pr hpr)
    rw [hscore, hnil]
    simp only [List.map_nil, List.sum_nil]
    rw [min_eq_left (by norm_num)]
    exact roundTo_zero 4
  · have hnil : contradiction_channels rows cfg = [] := by
      rw [contradiction_channels, List.filter_eq_nil_iff]
      intro pr hpr
      simpa using not_lt.mpr (hall pr hpr)
    rw [hdetail, hnil, List.map_nil]

/-- Concrete rows for the C5 instantiation: boredom averages 0.02 and
frustration 0.03, both below the noise floor, under a calm intent. -/
def c5_rows : List FusedRow :=
  [{ timestamp_sec := 0, current_state := "intro", boredom := 1/50,
     frustration := 3/100 }]

/-- Concrete state spec for the C5 instantiation. -/
def c5_cfg : DFAState :=
  { name := "intro", intended_emotion := "calm", acceptable_range := (0, 7/20),
    expected_duration_sec := 1 }

theorem c5_witness :
    (compute_verdict c5_rows c5_cfg).contradiction_score = 0 ∧
    (compute_verdict c5_rows c5_cfg).contradiction_detail = [] := by
  have hne : c5_rows.filter (fun r => r.current_state == c5_cfg.name) ≠ [] := by
    simp [c5_rows, c5_cfg, List.filter]
  have hfil : c5_rows.filter (fun r => r.current_state == c5_cfg.name) = c5_rows := by
    simp [c5_rows, c5_cfg, List.filter]
  have hprof : profile_of c5_cfg.intended_emotion =
      { primary := [("engagement", 1/2), ("delight", 1/2)]
        contradictions := [("frustration", 1), ("surprise", 3/5), ("confusion", 1/2)] } := rfl
  have hall : ∀ pr ∈ (profile_of c5_cfg.intended_emotion).contradictions,
      state_avgs c5_rows c5_cfg pr.1 ≤ 1/20 := by
    rw [hprof]
    intro pr hpr
    fin_cases hpr <;>
      · simp only [state_avgs]
        rw [hfil]
        simp [emotion_avgs_of, emotion_field, c5_rows]
        try norm_num
  exact (c5_contradiction_noise_floor c5_rows c5_cfg hne).2.2 hall

-- ──────────────────────────────────────────────────────────────────────────
-- C6
-- ──────────────────────────────────────────────────────────────────────────

theorem health_fold_go (l : List StateVerdict) :
    ∀ acc : List ℚ,
      l.foldl
        (fun (scores : List ℚ) v =>
          if v.verdict = "PASS" then scores ++ [1]
          else if v.verdict = "WARN" then scores ++ [3/5]
          else if v.verdict = "FAIL" then
            scores ++ [max 0 (1 - v.contradiction_score - v.deviation_score * (3/10))]
          else scores)
        acc = acc ++ l.filterMap verdict_points := by
  induction l with
  | nil => intro acc; simp
  | cons x xs ih =>
    intro acc
    simp only [List.foldl_cons, List.filterMap_cons, verdict_points]
    split_ifs <;> rw [ih] <;> simp [mul_comm]

/-- The health aggregation loop equals the spec mapping of §4.5. -/
theorem compute_health_eq_spec (verdicts : List StateVerdict) :
    compute_playtest_health_score verdicts = health_spec verdicts := by
  unfold compute_playtest_health_score health_spec
  rw [health_fold_go]
  simp

/-- A StateVerdict on which the claimed health bounds fail: a FAIL with a
negative contradiction score. -/
def c6_bad : StateVerdict :=
  { state_name := "s", intended_emotion := "x", verdict := "FAIL",
    contradiction_score := -5, deviation_score := 0 }

theorem roundTo_intCast (d : Nat) (n : ℤ) : roundTo d ((n : ℚ)) = n := by
  unfold roundTo halfEven
  have hmul : (n : ℚ) * 10 ^ d = ((n * 10 ^ d : ℤ) : ℚ) := by push_cast; ring
  rw [hmul, Int.floor_intCast]
  rw [if_pos (by rw [sub_self]; norm_num)]
  push_cast
  rw [mul_div_assoc, div_self (by positivity), mul_one]

/-- C6 counterexample: on a FAIL verdict with contradiction_score -5 and
deviation_score 0 the health score is 6, outside [0, 1], so the unrestricted
bounds clause of the claim is false. -/
theorem c6_counterexample :
    compute_playtest_health_score [c6_bad] = 6 ∧
    ¬ compute_playtest_health_score [c6_bad] ≤ 1 := by
  have hvp : verdict_points c6_bad = some 6 := by
    simp [verdict_points, c6_bad]
    norm_num
  have h6 : compute_playtest_health_score [c6_bad] = 6 := by
    rw [compute_health_eq_spec]
    unfold health_spec
    simp only [List.filterMap_cons, List.filterMap_nil, hvp]
    rw [if_neg (by simp)]
    simp only [List.sum_cons, List.sum_nil, List.length_cons, List.length_nil]
    norm_num
    exact_mod_cast roundTo_intCast 4 6
  exact ⟨h6, by rw [h6]; norm_num⟩

/-- C6 amended: the health score always equals the spec mapping (mean of
PASS to 1.0, WARN to 0.6, FAIL to max(0, 1 - contradiction - 0.3 deviation),
rounded to 4 decimals, NO_DATA excluded, 0.0 when nothing remains), and it
lies in [0, 1] whenever every FAIL verdict carries nonnegative contradiction
and deviation scores, as every verdict produced by compute_verdict does. -/
theorem c6_amended_health_score :
    (∀ verdicts : List StateVerdict,
        compute_playtest_health_score verdicts = health_spec verdicts) ∧
    (∀ verdicts : List StateVerdict,
        (∀ v ∈ verdicts, v.verdict = "FAIL" →
          0 ≤ v.contradiction_score ∧ 0 ≤ v.deviation_score) →
        0 ≤ compute_playtest_health_score verdicts ∧
        compute_playtest_health_score verdicts ≤ 1) ∧
    compute_playtest_health_score [] = 0 ∧
    (∀ verdicts : List StateVerdict,
        (∀ v ∈ verdicts, v.verdict = "NO_DATA") →
        compute_playtest_health_score verdicts = 0) := by
  refine ⟨compute_health_eq_spec, fun verdicts hok => ?_, by
    simp [compute_playtest_health_score], fun verdicts hnd => ?_⟩
  · rw [compute_health_eq_spec]
    unfold health_spec
    by_cases hnil : verdicts.filterMap verdict_points = []
    · simp [hnil]
    · have hmem : ∀ x ∈ verdicts.filterMap verdict_points, 0 ≤ x ∧ x ≤ 1 := by
        intro x hx
        obtain ⟨v, hv, hvx⟩ := List.mem_filterMap.mp hx
        unfold verdict_points at hvx
        split_ifs at hvx with hP hW hF
        · cases hvx; constructor <;> norm_num
        · cases hvx; constructor <;> norm_num
        · cases hvx
          have hcd := hok v hv hF
          constructor
          · exact le_max_left 0 _
          · apply max_le (by norm_num)
            linarith [hcd.1, hcd.2]
      simp only [if_neg hnil]
      have hlen : 0 < ((verdicts.filterMap verdict_points).length : ℚ) := by
        have := List.length_pos.mpr hnil
        exact_mod_cast this
      have hsum0 : 0 ≤ (verdicts.filterMap verdict_points).sum :=
        List.sum_nonneg (fun x hx => (hmem x hx).1)
      have hsum1 : (verdicts.filterMap verdict_points).sum ≤
          ((verdicts.filterMap verdict_points).length : ℚ) := by
        have := List.sum_le_card_nsmul (verdicts.filterMap verdict_points) 1
          (fun x hx => (hmem x hx).2)
        simpa using this
      constructor
      · exact roundTo_nonneg 4 (div_nonneg hsum0 (le_of_lt hlen))
      · exact roundTo_le_one 4 ((div_le_one hlen).mpr hsum1)
  · rw [compute_health_eq_spec]
    unfold health_spec
    have hnil : verdicts.filterMap verdict_points = [] := by
      rw [List.filterMap_eq_nil_iff]
      intro v hv
      have := hnd v hv
      unfold verdict_points
      rw [this]
      simp
    simp [hnil]

/-- A PASS verdict for the C6 instantiation. -/
def c6_good : StateVerdict :=
  { state_name := "s", intended_emotion := "x", verdict := "PASS" }

theorem c6_witness :
    0 ≤ compute_playtest_health_score [c6_good] ∧
    compute_playtest_health_score [c6_good] ≤ 1 :=
  c6_amended_health_score.2.1 [c6_good]
    (by
      intro v hv hFail
      fin_cases hv
      simp [c6_good] at hFail)

-- ──────────────────────────────────────────────────────────────────────────
-- C2
-- ──────────────────────────────────────────────────────────────────────────

theorem setFrom_length (s : String) : ∀ (k : Nat) (ls : List String),
    (setFrom s k ls).length = ls.length := by
  intro k ls
  induction ls generalizing k with
  | nil => cases k <;> simp [setFrom]
  | cons l ls ih =>
    cases k with
    | zero => simp [setFrom, ih 0]
    | succ k => simp [setFrom, ih k]

theorem setFrom_getD (s d : String) : ∀ (ls : List String) (k i : Nat),
    i < ls.length →
    (setFrom s k ls).getD i d = if k ≤ i then s else ls.getD i d := by
  intro ls
  induction ls with
  | nil => intro k i hi; simp at hi
  | cons l ls ih =>
    intro k i hi
    cases k with
    | zero =>
      cases i with
      | zero => simp [setFrom]
      | succ i =>
        simp only [setFrom, List.getD_cons_succ]
        rw [ih 0 i (by simpa using hi)]
        simp
    | succ k =>
      cases i with
      | zero => simp [setFrom]
      | succ i =>
        simp only [setFrom, List.getD_cons_succ]
        rw [ih k i (by simpa using hi)]
        simp [Nat.succ_le_succ_iff]

theorem timeline_fold_invariant (N : Nat) :
    ∀ (l : List StateEvent) (labels : List String) (lab : Nat → String),
      labels.length = N →
      (∀ i, i < N → labels.getD i "unknown" = lab i) →
      (l.foldl
          (fun labels e =>
            if 0 ≤ truncQ e.t ∧ truncQ e.t < (N : ℤ) then
              setFrom e.state (truncQ e.t).toNat labels
            else labels)
          labels).length = N ∧
      (∀ i, i < N →
        (l.foldl
            (fun labels e =>
              if 0 ≤ truncQ e.t ∧ truncQ e.t < (N : ℤ) then
                setFrom e.state (truncQ e.t).toNat labels
              else labels)
            labels).getD i "unknown" =
          l.foldl (overwrite_step truncQ N) lab i) := by
  intro l
  induction l with
  | nil => intro labels lab hlen hget; exact ⟨hlen, fun i hi => by simpa using hget i hi⟩
  | cons e l ih =>
    intro labels lab hlen hget
    simp only [List.foldl_cons]
    apply ih
    · by_cases hc : 0 ≤ truncQ e.t ∧ truncQ e.t < (N : ℤ)
      · rw [if_pos hc, setFrom_length, hlen]
      · rw [if_neg hc, hlen]
    · intro i hi
      by_cases hc : 0 ≤ truncQ e.t ∧ truncQ e.t < (N : ℤ)
      · rw [if_pos hc, setFrom_getD _ _ _ _ _ (by rw [hlen]; exact hi)]
        unfold overwrite_step
        have hle : (truncQ e.t).toNat ≤ i ↔ truncQ e.t ≤ (i : ℤ) := Int.toNat_le
        by_cases hki : (truncQ e.t).toNat ≤ i
        · rw [if_pos hki, if_pos ⟨hc.1, hc.2, hle.mp hki⟩]
        · rw [if_neg hki, hget i hi,
            if_neg (fun hcon => hki (hle.mpr hcon.2.2))]
      · rw [if_neg hc, hget i hi]
        unfold overwrite_step
        rw [if_neg (fun hcon => hc ⟨hcon.1, hcon.2.1⟩)]

/-- C2 amended: the built state timeline equals, for every event list and
session length, the reference forward-fill algorithm of the claim with the
floor bucketing replaced by the int() truncation toward zero the code
performs (so an event with timestamp in (-1, 0) is applied at second 0
rather than ignored; events whose truncated timestamp falls outside 0..N-1
are ignored without raising). -/
theorem c2_amended_timeline (events : List StateEvent) (N : Nat) :
    timeline_from_events events N = timeline_reference truncQ events N := by
  obtain ⟨hlen, hget⟩ := timeline_fold_invariant N (sortByT events)
    (List.replicate N "unknown") (fun _ => "unknown")
    (List.length_replicate N "unknown")
    (fun i hi => by
      rw [List.getD_eq_getElem _ _ (by simpa using hi)]
      exact List.getElem_replicate _ _)
  apply List.ext_getElem
  · rw [timeline_from_events, hlen, timeline_reference]
    simp
  · intro i h1 h2
    have hiN : i < N := by
      have := h1
      rw [timeline_from_events, hlen] at this
      exact this
    rw [← List.getD_eq_getElem _ "unknown" h1, ← List.getD_eq_getElem _ "unknown" h2]
    rw [timeline_from_events] at *
    rw [hget i hiN]
    have h2m : i < (List.map
        (List.foldl (overwrite_step truncQ N) (fun _ => "unknown") (sortByT events))
        (List.range N)).length := by
      simpa [timeline_reference] using h2
    rw [timeline_reference, List.getD_eq_getElem _ "unknown" h2m, List.getElem_map,
      List.getElem_range]

/-- C2 counterexample: on the single event (t = -0.5, boss) with N = 1, the
reference algorithm of the claim (floor bucketing, out-of-range events
ignored) leaves the timeline unknown, while the code buckets with int()
truncation toward zero and writes boss from second 0. -/
theorem c2_counterexample :
    timeline_from_events [{ t := -(1/2), state := "boss" }] 1 = ["boss"] ∧
    timeline_reference (fun q => ⌊q⌋) [{ t := -(1/2), state := "boss" }] 1 =
      ["unknown"] := by
  constructor
  · have htr : truncQ (-2⁻¹ : ℚ) = 0 := by norm_num [truncQ]
    simp [timeline_from_events, sortByT, insertByT, htr, setFrom]
  · have hfl : ⌊(-2⁻¹ : ℚ)⌋ = -1 := by norm_num
    simp [timeline_reference, sortByT, insertByT, overwrite_step, hfl,
      List.range, List.range.loop]

-- ──────────────────────────────────────────────────────────────────────────
-- C3
-- ──────────────────────────────────────────────────────────────────────────

theorem emo_value_at_nil (N t : Nat) (col : String) : emo_value_at [] N t col = 0 := by
  simp [emo_value_at]

theorem watch_value_at_nil (N t : Nat) (col : String) : watch_value_at [] N t col = 0 := by
  simp [watch_value_at]

theorem data_quality_at_nil (N t : Nat) : data_quality_at [] N t = 0 := by
  simp [data_quality_at, has_presage, presage_bucket]

theorem state_at_nil (N t : Nat) : state_at [] N t = "unknown" := by
  have hb : _build_state_timeline [] N = List.replicate N "unknown" := rfl
  rw [state_at, hb]
  rcases lt_or_ge t N with h | h
  · rw [List.getD_eq_getElem _ _ (by simpa using h)]
    exact List.getElem_replicate _ _
  · exact List.getD_eq_default _ _ (by simpa using h)

theorem time_in_state_nil (N : Nat) : ∀ t, time_in_state [] N t = t := by
  intro t
  induction t with
  | zero => rfl
  | succ t ih => simp [time_in_state, state_at_nil, ih]

/-- C3 counterexample: with all three input lists empty and no duration
override, fuse_streams returns 60 rows, not the 30 the claim states. -/
theorem c3_counterexample :
    (fuse_streams [] [] [] none "" none).length = 60 ∧
    (fuse_streams [] [] [] none "" none).length ≠ 30 := by
  have h : (fuse_streams [] [] [] none "" none).length = 60 := by
    rw [fuse_streams_eq_map, List.length_map, List.length_range]
    rfl
  exact ⟨h, by rw [h]; decide⟩

/-- C3 amended: with total_duration_sec unsupplied the session length is the
maximum of int(max emotion timestamp)+1, int(max biometric timestamp)+1 and
ceil(max chunk time-range end), each candidate present only when its list is
non-empty; when all three lists are empty the default is 60 seconds (there
is no 30-second floor), and the 60 returned rows carry state unknown,
time_in_state_sec equal to t, and zeros in every emotion, biometric,
intent-delta and data-quality column. -/
theorem c3_amended_duration_default :
    (∀ (pf : List EmotionFrame) (wr : List WatchReading) (crs : List ChunkResult)
        (cfg : Option DFAConfig) (sid : String),
        (fuse_streams pf wr crs cfg sid none).length =
          (inferred_duration (_normalize_presage pf) (_normalize_watch wr) crs).toNat) ∧
    inferred_duration [] [] [] = 60 ∧
    (∀ r ∈ fuse_streams [] [] [] none "" none,
        r.state = "unknown" ∧ r.time_in_state_sec = r.t ∧
        r.frustration = 0 ∧ r.confusion = 0 ∧ r.delight = 0 ∧ r.boredom = 0 ∧
        r.surprise = 0 ∧ r.engagement = 0 ∧ r.hr = 0 ∧ r.hrv_rmssd = 0 ∧
        r.hrv_sdnn = 0 ∧ r.presage_hr = 0 ∧ r.breathing_rate = 0 ∧
        r.movement_variance = 0 ∧ r.intent_delta = 0 ∧ r.data_quality = 0) := by
  refine ⟨fun pf wr crs cfg sid => ?_, rfl, fun r hr => ?_⟩
  · rw [fuse_streams_eq_map, List.length_map, List.length_range]
    simp [session_length]
  · rw [fuse_streams_eq_map] at hr
    obtain ⟨t, ht, rfl⟩ := List.mem_map.mp hr
    have hnp : _normalize_presage [] = [] := rfl
    have hnw : _normalize_watch [] = [] := rfl
    rw [hnp, hnw]
    refine ⟨?_, ?_, ?_, ?_, ?_, ?_, ?_, ?_, ?_, ?_, ?_, ?_, ?_, ?_, ?_, ?_⟩ <;>
      simp [mk_fused_row, state_at_nil, time_in_state_nil, emo_value_at_nil,
        watch_value_at_nil, data_quality_at_nil, roundTo_zero, _compute_intent_delta]

theorem c3_witness :
    (mk_fused_row (_normalize_presage []) (_normalize_watch []) [] none ""
        (session_length [] [] [] none) 0).state = "unknown" := by
  have hmem : mk_fused_row (_normalize_presage []) (_normalize_watch []) [] none ""
      (session_length [] [] [] none) 0 ∈ fuse_streams [] [] [] none "" none := by
    rw [fuse_streams_eq_map]
    exact List.mem_map.mpr ⟨0, List.mem_range.mpr (by decide), rfl⟩
  exact (c3_amended_duration_default.2.2 _ hmem).1

-- ──────────────────────────────────────────────────────────────────────────
-- C8
-- ──────────────────────────────────────────────────────────────────────────

theorem has_presage_normalize (pf : List EmotionFrame) (N t : Nat) :
    has_presage (_normalize_presage pf) N t =
      pf.any (fun f => clip_bucket N f.timestamp_sec == t) := by
  induction pf with
  | nil => rfl
  | cons f fs ih =>
    simp only [has_presage, presage_bucket, _normalize_presage, List.map_cons,
      List.filter_cons, List.any_cons] at *
    by_cases h : (clip_bucket N f.timestamp_sec == t) = true
    · simp [h]
    · simp only [Bool.not_eq_true] at h
      simp [h, ih]

/-- C8: in the fused output, data_quality at second t is 1.0 exactly when at
least one raw emotion sample was bucketed (with int() truncation and
clipping) into second t, and 0.0 otherwise — independently of the
interpolated or filled emotion values. -/
theorem c8_data_quality (pf : List EmotionFrame) (wr : List WatchReading)
    (crs : List ChunkResult) (cfg : Option DFAConfig) (sid : String)
    (dur : Option ℤ) :
    (fuse_streams pf wr crs cfg sid dur).map (fun r => r.data_quality) =
      (List.range (session_length pf wr crs dur)).map
        (fun t =>
          if pf.any (fun f =>
              clip_bucket (session_length pf wr crs dur) f.timestamp_sec == t)
          then (1 : ℚ) else 0) := by
  rw [fuse_streams_eq_map, List.map_map]
  apply List.map_congr_left
  intro t ht
  show roundTo 4
      (data_quality_at (_normalize_presage pf) (session_length pf wr crs dur) t) = _
  rw [data_quality_at, has_presage_normalize]
  by_cases h : pf.any (fun f =>
      clip_bucket (session_length pf wr crs dur) f.timestamp_sec == t) = true
  · rw [if_pos h]
    exact roundTo_one 4
  · rw [if_neg h]
    exact roundTo_zero 4

-- ──────────────────────────────────────────────────────────────────────────
-- C9
-- ──────────────────────────────────────────────────────────────────────────

theorem _compute_intent_delta_nonneg (cfg : Option DFAConfig) (st : String)
    (f : String → ℚ) : 0 ≤ _compute_intent_delta cfg st f := by
  rcases cfg with _ | c
  · simp [_compute_intent_delta]
  · simp only [_compute_intent_delta]
    by_cases h : c.states.isEmpty
    · rw [if_pos h]
    · rw [if_neg h]
      rcases hmatch : state_intent_lookup c.states st with _ | ⟨col, mid⟩
      · simp only [hmatch]
        exact le_refl 0
      · simp only [hmatch]
        exact abs_nonneg _

/-- C9: every fused row has nonnegative intent_delta; the delta is 0.0 when
no configured StateSpec name equals the row state, and otherwise it is the
(4-decimal rounded) absolute difference between the measured value of the
column the alias table assigns to the intended emotion and the midpoint of
the acceptable range. -/
theorem c9_intent_delta (pf : List EmotionFrame) (wr : List WatchReading)
    (crs : List ChunkResult) (cfg : Option DFAConfig) (sid : String)
    (dur : Option ℤ) :
    ∀ r ∈ fuse_streams pf wr crs cfg sid dur,
      0 ≤ r.intent_delta ∧
      (state_intent_of cfg r.state = none → r.intent_delta = 0) ∧
      (∀ col mid, state_intent_of cfg r.state = some (col, mid) →
        r.intent_delta =
          roundTo 4 |emo_value_at (_normalize_presage pf)
            (session_length pf wr crs dur) r.t col - mid|) := by
  intro r hr
  rw [fuse_streams_eq_map] at hr
  obtain ⟨t, ht, rfl⟩ := List.mem_map.mp hr
  refine ⟨roundTo_nonneg 4 (_compute_intent_delta_nonneg _ _ _), ?_, ?_⟩
  · intro hnone
    show roundTo 4 (_compute_intent_delta cfg
      (state_at crs (session_length pf wr crs dur) t)
      (emo_value_at (_normalize_presage pf) (session_length pf wr crs dur) t)) = 0
    rcases cfg with _ | c
    · rw [show _compute_intent_delta none
          (state_at crs (session_length pf wr crs dur) t)
          (emo_value_at (_normalize_presage pf) (session_length pf wr crs dur) t) =
          0 from rfl]
      exact roundTo_zero 4
    · simp only [state_intent_of] at hnone
      have hnone2 : state_intent_lookup c.states
          (state_at crs (session_length pf wr crs dur) t) = none := hnone
      simp only [_compute_intent_delta]
      by_cases h : c.states.isEmpty
      · rw [if_pos h]
        exact roundTo_zero 4
      · rw [if_neg h]
        simp only [hnone2]
        exact roundTo_zero 4
  · intro col mid hsome
    show roundTo 4 (_compute_intent_delta cfg
        (state_at crs (session_length pf wr crs dur) t)
        (emo_value_at (_normalize_presage pf) (session_length pf wr crs dur) t)) =
      roundTo 4 |emo_value_at (_normalize_presage pf)
        (session_length pf wr crs dur) t col - mid|
    rcases cfg with _ | c
    · exact Option.noConfusion hsome
    · simp only [state_intent_of] at hsome
      have hsome2 : state_intent_lookup c.states
          (state_at crs (session_length pf wr crs dur) t) = some (col, mid) := hsome
      congr 1
      simp only [_compute_intent_delta]
      have hne : ¬ c.states.isEmpty = true := by
        intro hemp
        rw [List.isEmpty_iff] at hemp
        rw [hemp] at hsome2
        simp [state_intent_lookup] at hsome2
      rw [if_neg hne]
      simp only [hsome2]

/-- Concrete chunk results for the C9 instantiation. -/
def c9_crs : List ChunkResult :=
  [{ time_range_sec := (0, 1),
     states_observed := [{ state_name := "boss", entered_at_sec := 0 }] }]

theorem c9_witness :
    0 ≤ (mk_fused_row (_normalize_presage []) (_normalize_watch []) c9_crs none "s"
        (session_length [] [] c9_crs (some 1)) 0).intent_delta := by
  have hmem : mk_fused_row (_normalize_presage []) (_normalize_watch []) c9_crs none "s"
      (session_length [] [] c9_crs (some 1)) 0 ∈
      fuse_streams [] [] c9_crs none "s" (some 1) := by
    rw [fuse_streams_eq_map]
    exact List.mem_map.mpr ⟨0, List.mem_range.mpr (by decide), rfl⟩
  exact (c9_intent_delta [] [] c9_crs none "s" (some 1) _ hmem).1

-- ──────────────────────────────────────────────────────────────────────────
-- C10
-- ──────────────────────────────────────────────────────────────────────────

theorem argmaxFold_cons {α : Type} (val : α → ℚ) (x : α) (xs : List α) (init : α) :
    argmaxFold val (x :: xs) init =
      argmaxFold val xs (if val init < val x then x else init) := rfl

theorem argmaxFold_mem {α : Type} (val : α → ℚ) :
    ∀ (l : List α) (init : α),
      argmaxFold val l init = init ∨ argmaxFold val l init ∈ l := by
  intro l
  induction l with
  | nil => intro init; exact Or.inl rfl
  | cons x xs ih =>
    intro init
    rw [argmaxFold_cons]
    rcases ih (if val init < val x then x else init) with h | h
    · rw [h]
      by_cases hc : val init < val x
      · rw [if_pos hc]; exact Or.inr (List.mem_cons_self x xs)
      · rw [if_neg hc]; exact Or.inl rfl
    · exact Or.inr (List.mem_cons_of_mem x h)

theorem argmaxFold_ge {α : Type} (val : α → ℚ) :
    ∀ (l : List α) (init : α),
      val init ≤ val (argmaxFold val l init) ∧
      ∀ a ∈ l, val a ≤ val (argmaxFold val l init) := by
  intro l
  induction l with
  | nil =>
    intro init
    exact ⟨le_refl _, fun a ha => absurd ha (List.not_mem_nil a)⟩
  | cons x xs ih =>
    intro init
    rw [argmaxFold_cons]
    obtain ⟨h1, h2⟩ := ih (if val init < val x then x else init)
    constructor
    · refine le_trans ?_ h1
      by_cases hc : val init < val x
      · rw [if_pos hc]; exact le_of_lt hc
      · rw [if_neg hc]
    · intro a ha
      rcases List.mem_cons.mp ha with rfl | ha
      · refine le_trans ?_ h1
        by_cases hc : val init < val a
        · rw [if_pos hc]
        · rw [if_neg hc]; exact not_lt.mp hc
      · exact h2 a ha

/-- C10: the verdict-level actual_dominant_emotion is the arg-max over the
averages of all six emotion channels, engagement included, and is never
unknown even when every average is nonpositive; the per-row
dominant_emotion of the fused output instead arg-maxes the five channels
without engagement and falls back to unknown when their maximum is
nonpositive. -/
theorem c10_dominant_emotion :
    (∀ (rows : List FusedRow) (cfg : DFAState),
        rows.filter (fun r => r.current_state == cfg.name) ≠ [] →
        (compute_verdict rows cfg).actual_dominant_emotion ∈ EMOTION_KEYS ∧
        (compute_verdict rows cfg).actual_dominant_emotion ≠ "unknown" ∧
        ∀ k ∈ EMOTION_KEYS,
          state_avgs rows cfg k ≤
            state_avgs rows cfg ((compute_verdict rows cfg).actual_dominant_emotion)) ∧
    (∀ (pf : List EmotionFrame) (wr : List WatchReading) (crs : List ChunkResult)
        (cfg : Option DFAConfig) (sid : String) (dur : Option ℤ),
        ∀ r ∈ fuse_streams pf wr crs cfg sid dur,
          ((∀ c ∈ FIVE_EMOTIONS,
              emo_value_at (_normalize_presage pf) (session_length pf wr crs dur)
                r.t c ≤ 0) →
            r.dominant_emotion = "unknown") ∧
          ((∃ c ∈ FIVE_EMOTIONS,
              0 < emo_value_at (_normalize_presage pf) (session_length pf wr crs dur)
                r.t c) →
            r.dominant_emotion ∈ FIVE_EMOTIONS ∧
            ∀ c ∈ FIVE_EMOTIONS,
              emo_value_at (_normalize_presage pf) (session_length pf wr crs dur)
                  r.t c ≤
                emo_value_at (_normalize_presage pf) (session_length pf wr crs dur)
                  r.t r.dominant_emotion)) := by
  constructor
  · intro rows cfg h
    have hdom : (compute_verdict rows cfg).actual_dominant_emotion =
        argmaxFold (state_avgs rows cfg) EMOTION_KEYS "frustration" := by
      simp only [compute_verdict, if_neg h, state_avgs]
    have hmem : argmaxFold (state_avgs rows cfg) EMOTION_KEYS "frustration" ∈
        EMOTION_KEYS := by
      rcases argmaxFold_mem (state_avgs rows cfg) EMOTION_KEYS "frustration" with h1 | h1
      · rw [h1]; decide
      · exact h1
    refine ⟨hdom ▸ hmem, ?_, ?_⟩
    · rw [hdom]
      intro hcon
      rw [hcon] at hmem
      revert hmem
      decide
    · intro k hk
      rw [hdom]
      exact (argmaxFold_ge (state_avgs rows cfg) EMOTION_KEYS "frustration").2 k hk
  · intro pf wr crs cfg sid dur r hr
    rw [fuse_streams_eq_map] at hr
    obtain ⟨t, ht, rfl⟩ := List.mem_map.mp hr
    have hbest_mem : argmaxFold Prod.snd
        (dominant_pairs (_normalize_presage pf) (session_length pf wr crs dur) t)
        ("frustration", emo_value_at (_normalize_presage pf)
          (session_length pf wr crs dur) t "frustration") ∈
        dominant_pairs (_normalize_presage pf) (session_length pf wr crs dur) t := by
      rcases argmaxFold_mem Prod.snd
          (dominant_pairs (_normalize_presage pf) (session_length pf wr crs dur) t)
          ("frustration", emo_value_at (_normalize_presage pf)
            (session_length pf wr crs dur) t "frustration") with h1 | h1
      · rw [h1]
        simp [dominant_pairs, FIVE_EMOTIONS]
      · exact h1
    obtain ⟨c0, hc0, hpair⟩ := List.mem_map.mp hbest_mem
    have hge := (argmaxFold_ge Prod.snd
      (dominant_pairs (_normalize_presage pf) (session_length pf wr crs dur) t)
      ("frustration", emo_value_at (_normalize_presage pf)
        (session_length pf wr crs dur) t "frustration")).2
    constructor
    · intro hall
      show dominant_emotion_at (_normalize_presage pf)
        (session_length pf wr crs dur) t = "unknown"
      simp only [dominant_emotion_at]
      rw [if_neg ?hneg]
      case hneg =>
        rw [← hpair]
        exact not_lt.mpr (hall c0 hc0)
    · intro hexi
      obtain ⟨c1, hc1, hpos⟩ := hexi
      have hposbest : 0 < (argmaxFold Prod.snd
          (dominant_pairs (_normalize_presage pf) (session_length pf wr crs dur) t)
          ("frustration", emo_value_at (_normalize_presage pf)
            (session_length pf wr crs dur) t "frustration")).2 := by
        refine lt_of_lt_of_le hpos ?_
        have hc1mem : (c1, emo_value_at (_normalize_presage pf)
            (session_length pf wr crs dur) t c1) ∈
            dominant_pairs (_normalize_presage pf) (session_length pf wr crs dur) t :=
          List.mem_map.mpr ⟨c1, hc1, rfl⟩
        exact hge _ hc1mem
      constructor
      · show dominant_emotion_at (_normalize_presage pf)
          (session_length pf wr crs dur) t ∈ FIVE_EMOTIONS
        simp only [dominant_emotion_at]
        rw [if_pos hposbest, ← hpair]
        exact hc0
      · intro c hc
        show emo_value_at (_normalize_presage pf) (session_length pf wr crs dur) t c ≤
          emo_value_at (_normalize_presage pf) (session_length pf wr crs dur) t
            (dominant_emotion_at (_normalize_presage pf)
              (session_length pf wr crs dur) t)
        have hcle : emo_value_at (_normalize_presage pf)
            (session_length pf wr crs dur) t c ≤
            (argmaxFold Prod.snd
              (dominant_pairs (_normalize_presage pf) (session_length pf wr crs dur) t)
              ("frustration", emo_value_at (_normalize_presage pf)
                (session_length pf wr crs dur) t "frustration")).2 := by
          have hcmem : (c, emo_value_at (_normalize_presage pf)
              (session_length pf wr crs dur) t c) ∈
              dominant_pairs (_normalize_presage pf) (session_length pf wr crs dur) t :=
            List.mem_map.mpr ⟨c, hc, rfl⟩
          exact hge _ hcmem
        simp only [dominant_emotion_at]
        rw [if_pos hposbest, ← hpair]
        rw [← hpair] at hcle
        exact hcle

/-- Concrete all-zero row for the C10 instantiation: every emotion average
is 0, yet the verdict dominant emotion is a real channel. -/
def c10_rows : List FusedRow :=
  [{ timestamp_sec := 0, current_state := "s" }]

/-- Concrete state spec for the C10 instantiation. -/
def c10_cfg : DFAState := { name := "s", intended_emotion := "calm" }

theorem c10_witness :
    (compute_verdict c10_rows c10_cfg).actual_dominant_emotion ∈ EMOTION_KEYS ∧
    (compute_verdict c10_rows c10_cfg).actual_dominant_emotion ≠ "unknown" :=
  ⟨(c10_dominant_emotion.1 c10_rows c10_cfg
      (by simp [c10_rows, c10_cfg, List.filter])).1,
   (c10_dominant_emotion.1 c10_rows c10_cfg
      (by simp [c10_rows, c10_cfg, List.filter])).2.1⟩

/-- Concrete state spec for the C7 instantiation. -/
def c7_cfg : DFAState := { name := "lobby", intended_emotion := "excited" }

theorem c7_witness :
    (compute_verdict [] c7_cfg).verdict = "NO_DATA" :=
  ((c7_verdict_domain_no_data [] c7_cfg).2.1).mpr rfl
